import Mathlib

set_option maxHeartbeats 1000000

/-!
Shallow embedding of the datadis-api stream engine (`src/base.py`, `src/streams.py`)
and proofs of the specified properties.

JSON values returned by `response.json()` are modelled by the inductive `Json`.
Python `None` (both JSON `null` and the default of `dict.get`) is modelled by
`Json.null`; JSON numbers are modelled over `Int` (numeric values are never
recursed into by the code under study, and their Python truthiness — zero is
falsy — is preserved).
-/

inductive Json where
  | null : Json
  | bool (b : Bool) : Json
  | num (n : Int) : Json
  | str (s : String) : Json
  | arr (elems : List Json) : Json
  | obj (fields : List (String × Json)) : Json

/-- Python truthiness of a JSON value: `None`, `False`, `0`, `""`, `[]` and `{}`
are falsy, everything else truthy. -/
def Json.truthy : Json → Bool
  | .null => false
  | .bool b => b
  | .num n => n != 0
  | .str s => s != ""
  | .arr l => !l.isEmpty
  | .obj f => !f.isEmpty

/-- Lookup of the first binding of a key in an association list, modelling
Python dict lookup (dict keys are unique, so first binding is the binding). -/
def dictLookup : List (String × α) → String → Option α
  | [], _ => none
  | (k', v) :: rest, k => if k' = k then some v else dictLookup rest k

/-- Python `d[k] = v` on a dict: replace the binding of `k` in place if present,
otherwise append the new binding at the end. -/
def dictInsert : List (String × α) → String → α → List (String × α)
  | [], k, v => [(k, v)]
  | (k', v') :: rest, k, v =>
      if k' = k then (k, v) :: rest else (k', v') :: dictInsert rest k v

/-- Python `dict(base, **upd)` and `base.update(upd)`: each binding of `upd`
is written into `base` left to right, the updating value winning on a key
collision. -/
def pyDictUpdate (base upd : List (String × α)) : List (String × α) :=
  upd.foldl (fun m kv => dictInsert m kv.1 kv.2) base

/-- Python `value.get(k)` on a JSON object: the bound value, or `None`
(modelled `Json.null`) when the key is absent. -/
def dictGet (fields : List (String × Json)) (k : String) : Json :=
  (dictLookup fields k).getD .null

/-- Python `a or b`: `a` if `a` is truthy, else `b`. -/
def pyOr (a b : Json) : Json :=
  if a.truthy then a else b

/-- Embeds the `or`-chain of `BaseStream.parse_response_error_message`
(`src/base.py` lines 187-195): `value.get("message") or value.get("messages")
or value.get("error") or value.get("errors") or value.get("failures") or
value.get("failure") or value.get("detail")`. -/
def chainValue (fields : List (String × Json)) : Json :=
  pyOr (dictGet fields "message")
    (pyOr (dictGet fields "messages")
      (pyOr (dictGet fields "error")
        (pyOr (dictGet fields "errors")
          (pyOr (dictGet fields "failures")
            (pyOr (dictGet fields "failure")
              (dictGet fields "detail"))))))

theorem dictGet_sizeOf (fields : List (String × Json)) (k : String) :
    sizeOf (dictGet fields k) < 1 + sizeOf fields := by
  induction fields with
  | nil => simp [dictGet, dictLookup]
  | cons hd tl ih =>
      obtain ⟨k', v⟩ := hd
      by_cases h : k' = k
      · subst h
        simp [dictGet, dictLookup]
        omega
      · simp only [dictGet, dictLookup, if_neg h]
        have := ih
        simp only [dictGet] at this
        simp only [List.cons.sizeOf_spec, Prod.mk.sizeOf_spec]
        omega

theorem pyOr_sizeOf_lt (a b : Json) (n : Nat)
    (ha : sizeOf a < n) (hb : sizeOf b < n) : sizeOf (pyOr a b) < n := by
  unfold pyOr
  split <;> assumption

theorem chainValue_sizeOf (fields : List (String × Json)) :
    sizeOf (chainValue fields) < 1 + sizeOf fields := by
  unfold chainValue
  exact pyOr_sizeOf_lt _ _ _ (dictGet_sizeOf _ _)
    (pyOr_sizeOf_lt _ _ _ (dictGet_sizeOf _ _)
      (pyOr_sizeOf_lt _ _ _ (dictGet_sizeOf _ _)
        (pyOr_sizeOf_lt _ _ _ (dictGet_sizeOf _ _)
          (pyOr_sizeOf_lt _ _ _ (dictGet_sizeOf _ _)
            (pyOr_sizeOf_lt _ _ _ (dictGet_sizeOf _ _) (dictGet_sizeOf _ _))))))

/-- Embeds the inner `_try_get_error` of
`BaseStream.parse_response_error_message` (`src/base.py` lines 180-197):
strings are returned as is; lists are recursed element-wise and the non-`None`
results joined with `", "`; dicts are recursed into the truthiness `or`-chain
over the keys `message`, `messages`, `error`, `errors`, `failures`, `failure`,
`detail`; every other value yields `None`. -/
def tryGetError : Json → Option String
  | .str s => some s
  | .arr l =>
      some (String.intercalate ", "
        ((l.attach.map fun x => tryGetError x.1).reduceOption))
  | .obj fields => tryGetError (chainValue fields)
  | .null => none
  | .bool _ => none
  | .num _ => none
termination_by j => sizeOf j
decreasing_by
  · exact Nat.lt_trans (List.sizeOf_lt_of_mem x.2) (by simp [Json.arr.sizeOf_spec])
  · exact Nat.lt_of_lt_of_le (chainValue_sizeOf fields) (by simp [Json.obj.sizeOf_spec])

/-- Embeds `BaseStream.parse_response_error_message` (`src/base.py` lines
176-203): the parsed JSON view of a response body is an `Option Json`, `none`
when `response.json()` raises `JSONDecodeError`, in which case the method
returns `None`. -/
def parse_response_error_message (body : Option Json) : Option String :=
  match body with
  | none => none
  | some j => tryGetError j

/-- Embeds `BaseStream.should_retry` (`src/base.py` lines 112-114). -/
def should_retry (status_code : Nat) : Bool :=
  status_code == 429 || (500 ≤ status_code && status_code < 600)

/-- Methods for which `_create_prepared_request` attaches a body
(`BODY_REQUEST_METHODS` in `src/base.py` line 10). -/
def BODY_REQUEST_METHODS : List String := ["GET", "POST", "PUT", "PATCH"]

/-- Value returned by `request_body_data`: either ready text sent as is, or a
mapping converted to a urlencoded form (`src/base.py` lines 79-94). -/
inductive FormBody where
  | text (s : String) : FormBody
  | form (fields : List (String × String)) : FormBody

/-- Python truthiness of the optional `json` argument of
`_create_prepared_request` (absent, or an empty mapping, is falsy). -/
def jsonBodyTruthy : Option (List (String × Json)) → Bool
  | none => false
  | some m => !m.isEmpty

/-- Python truthiness of the optional `data` argument of
`_create_prepared_request` (absent, an empty string, or an empty mapping, is
falsy). -/
def formBodyTruthy : Option FormBody → Bool
  | none => false
  | some (.text s) => s != ""
  | some (.form f) => !f.isEmpty

/-- Body finally attached to the outgoing request by
`_create_prepared_request`. -/
inductive ReqBody where
  | empty : ReqBody
  | jsonBody (m : List (String × Json)) : ReqBody
  | dataBody (d : FormBody) : ReqBody

/-- Exception raised by `_create_prepared_request` when both body kinds are
supplied; its message in the source reads: at the same time only one of the
request_body_data and request_body_json functions can return data. -/
inductive RequestBodyException where
  | conflictingBody : RequestBodyException

/-- Request assembled by `_create_prepared_request`; the URL join
`urljoin(url_base, path)` is kept abstract as the pair of its arguments, since
no claim under study depends on its semantics. -/
structure PreparedRequest where
  method : String
  urlBase : String
  path : String
  headers : Option (List (String × String))
  params : List (String × Json)
  body : ReqBody

/-- Python `str.upper()` (character-wise ASCII uppercasing, as performed by
`self.http_method.upper()` on the ASCII method names in play). -/
def pyUpper (s : String) : String :=
  String.mk (s.data.map Char.toUpper)

/-- Embeds `BaseStream._create_prepared_request` (`src/base.py` lines
116-138): `params or {}` defaults an absent params mapping to empty; for a
method in `BODY_REQUEST_METHODS`, a truthy `json` together with a truthy
`data` raises `RequestBodyException`, else the truthy one of the two (if any)
is attached. -/
def create_prepared_request (http_method url_base path : String)
    (headers : Option (List (String × String)))
    (params : Option (List (String × Json)))
    (json : Option (List (String × Json)))
    (data : Option FormBody) :
    Except RequestBodyException PreparedRequest :=
  let query_params := params.getD []
  if pyUpper http_method ∈ BODY_REQUEST_METHODS then
    if jsonBodyTruthy json && formBodyTruthy data then
      .error .conflictingBody
    else if jsonBodyTruthy json then
      .ok ⟨http_method, url_base, path, headers, query_params, .jsonBody (json.getD [])⟩
    else if formBodyTruthy data then
      .ok ⟨http_method, url_base, path, headers, query_params,
        .dataBody (data.getD (.text ""))⟩
    else
      .ok ⟨http_method, url_base, path, headers, query_params, .empty⟩
  else
    .ok ⟨http_method, url_base, path, headers, query_params, .empty⟩

/-- Embeds the header argument built by `BaseStream._fetch_next_page`
(`src/base.py` line 272): `dict(request_headers, **self.authenticator.get_auth_header())`. -/
def prepared_headers (request_headers auth_header : List (String × String)) :
    List (String × String) :=
  pyDictUpdate request_headers auth_header

/-- Embeds `BaseStream.request_params` (`src/base.py` lines 50-53). -/
def request_params (authorized_nif : String) : List (String × Json) :=
  [("authorizedNif", .str authorized_nif)]

/-- Record objects (JSON mappings), the element type of the parsed body of a
data response. -/
abbrev Obj := List (String × Json)

/-- Embeds the access `kwargs["stream_slice"]["parent"]` used by
`Comsumption.request_params` and `Comsumption.parse_response`
(`src/streams.py`): the parent record stored in the slice mapping. A slice
built by `Comsumption.stream_slices` always carries an object under `parent`;
other shapes (which would raise `KeyError`/`TypeError` in the source) are
mapped to the empty object. -/
def sliceParent (s : Obj) : Obj :=
  match dictLookup s "parent" with
  | some (.obj f) => f
  | _ => []

/-- Embeds `Comsumption.request_params` (`src/streams.py` lines 43-54):
`super().request_params(**kwargs)` updated with the six derived keys. The
source's `kwargs["stream_slice"]["parent"][k]` raises `KeyError` on a missing
key `k`; the model reads `Json.null` instead, which coincides with the source
whenever the parent record carries the key. -/
def comsumption_request_params (authorized_nif start_date : String)
    (stream_slice : Obj) : List (String × Json) :=
  pyDictUpdate (request_params authorized_nif)
    [("cups", dictGet (sliceParent stream_slice) "cups"),
     ("distributorCode", dictGet (sliceParent stream_slice) "distributorCode"),
     ("startDate", .str start_date),
     ("endDate", .str start_date),
     ("measurementType", .num 0),
     ("pointType", dictGet (sliceParent stream_slice) "pointType")]

/-- Response as seen by `_send`: status code plus the lazily parsed JSON view
of the body (`none` when the body is not valid JSON). -/
structure HttpResponse where
  status : Nat
  body : Option Json

/-- Errors raised by `BaseStream._send` (`src/base.py` lines 148-174):
the two backoff exceptions from `.exceptions`, each carrying the stream's
`error_message(response)` and the triggering response's status, and the
`requests.HTTPError` re-raised from `response.raise_for_status()`, which is
built by the transport library from the status (and reason/URL) alone — no
field of it is derived from the response body. -/
inductive SendError where
  | userBackoff (backoff : Nat) (status : Nat) (errMsg : String) : SendError
  | defaultBackoff (status : Nat) (errMsg : String) : SendError
  | httpStatus (status : Nat) : SendError

/-- Predicate of `requests.Response.raise_for_status`: an `HTTPError` is
raised exactly for status codes in `[400, 600)`. -/
def raiseForStatus (status : Nat) : Bool :=
  400 ≤ status && status < 600

/-- Embeds `BaseStream._send` (`src/base.py` lines 148-174), parameterised by
the overridable methods it dispatches on: `should_retry`, `backoff_time`
(whose result is tested for Python truthiness, so a zero backoff falls to the
default exception), `error_message` and `raise_on_http_errors`. -/
def send (shouldRetryF : HttpResponse → Bool)
    (backoffTimeF : HttpResponse → Option Nat)
    (errorMessageF : HttpResponse → String)
    (raise_on_http_errors : Bool)
    (response : HttpResponse) : Except SendError HttpResponse :=
  if shouldRetryF response then
    match backoffTimeF response with
    | some t =>
        if t ≠ 0 then .error (.userBackoff t response.status (errorMessageF response))
        else .error (.defaultBackoff response.status (errorMessageF response))
    | none => .error (.defaultBackoff response.status (errorMessageF response))
  else if raise_on_http_errors && raiseForStatus response.status then
    .error (.httpStatus response.status)
  else
    .ok response

/-- Instantiates `send` with the defaults of `BaseStream` (and of both
concrete streams, which override none of them): `should_retry` on the status,
`backoff_time` returning `None`, `error_message` returning the empty string,
`raise_on_http_errors` true. -/
def sendDefault (response : HttpResponse) : Except SendError HttpResponse :=
  send (fun r => should_retry r.status) (fun _ => none) (fun _ => "") true response

/-- Outcome of one transport attempt as seen by the retry handlers: a terminal
response, or a retryable failure optionally carrying a stream-supplied backoff
duration (the `UserDefinedBackoffException` / `DefaultBackoffException`
distinction of `_send`). -/
inductive SendOutcome (α : Type) where
  | ok (resp : α) : SendOutcome α
  | retryable (customBackoff : Option Nat) : SendOutcome α

/-- Truth of `SendOutcome.retryable`. -/
def SendOutcome.isRetryable : SendOutcome α → Bool
  | .ok _ => false
  | .retryable _ => true

/-- Result of the retry executor: a terminal success or the last failure
surfaced as terminal, each carrying the one-based index of the last attempt
made and the total backoff-wait time spent. -/
inductive RetryResult (α : Type) where
  | success (resp : α) (attempts : Nat) (elapsed : Nat) : RetryResult α
  | failure (attempts : Nat) (elapsed : Nat) : RetryResult α

/-- Attempt count of a retry result. -/
def RetryResult.attempts : RetryResult α → Nat
  | .success _ a _ => a
  | .failure a _ => a

/-- Elapsed wait time of a retry result. -/
def RetryResult.elapsed : RetryResult α → Nat
  | .success _ _ e => e
  | .failure _ e => e

/-- Truth of `RetryResult.failure`. -/
def RetryResult.isFailure : RetryResult α → Bool
  | .success _ _ _ => false
  | .failure _ _ => true

/-- Modelled from the spec: `rate_limiting.default_backoff_handler` and
`rate_limiting.user_defined_backoff_handler` are imported by `src/base.py`
but `src/rate_limiting.py` is not under `src/`. Following spec sections 4.2
and 7, the two tiers are modelled as a single retry loop: each failed attempt
waits the stream-supplied duration when one is given, else the default
exponential `factor * 2 ^ (attempt - 1)`; a retry happens only while the next
attempt stays within the attempt budget and the accumulated wait stays within
the time budget, and otherwise the last failure is surfaced as terminal. The
`fuel` argument only makes the recursion structural; callers pass at least
`max_tries`, which the attempt guard keeps from ever reaching zero.
Here `backoffWait` is the wait before retrying the given failed attempt:
the stream-supplied duration when one is given, else the default exponential. -/
def backoffWait (factor attempt : Nat) : Option Nat → Nat
  | some t => t
  | none => factor * 2 ^ (attempt - 1)

/-- Modelled from the spec (see `backoffWait`): the single retry loop of spec
section 4.2 over an abstract transport, with attempt and wall-clock budgets. -/
def retryLoop (transport : Nat → SendOutcome α) (max_tries max_time factor : Nat) :
    Nat → Nat → Nat → RetryResult α
  | 0, attempt, elapsed => .failure attempt elapsed
  | fuel + 1, attempt, elapsed =>
      match transport attempt with
      | .ok r => .success r attempt elapsed
      | .retryable cb =>
          if attempt < max_tries ∧ elapsed + backoffWait factor attempt cb ≤ max_time then
            retryLoop transport max_tries max_time factor fuel (attempt + 1)
              (elapsed + backoffWait factor attempt cb)
          else
            .failure attempt elapsed

/-- Embeds `BaseStream._send_request` (`src/base.py` lines 205-218): the
budget constants `max_tries = 5` (then `max(0, max_tries) + 1 = 6` total
attempts), `max_time = 60 * 10` seconds and `retry_factor = 5`, applied to the
spec-modelled retry loop over an abstract transport. -/
def send_request (transport : Nat → SendOutcome α) : RetryResult α :=
  let max_tries := 5
  let max_time := 60 * 10
  let retry_factor := 5
  let max_tries := max 0 max_tries + 1
  retryLoop transport max_tries max_time retry_factor max_tries 1 0

/-- Interleaved observable behaviour of one pagination cycle: requests sent
(carrying the page token they were built with) and records yielded. -/
inductive Event (ρ : Type) where
  | req (token : Option Json) : Event ρ
  | out (record : ρ) : Event ρ

/-- Python truthiness of the `Optional[Mapping]` page token tested by
`if not next_page_token` in `_read_pages`: `None` and empty mappings (and any
other falsy JSON value) end the pagination. -/
def tokenTruthy : Option Json → Bool
  | none => false
  | some j => j.truthy

/-- Embeds the `while not pagination_complete` loop of
`BaseStream._read_pages` (`src/base.py` lines 241-261), parameterised by the
stream's `parse_response` and `next_page_token` methods and driven by a
scripted transport that serves the responses of `script` in order, one per
issued request: each iteration issues one request built with the current
token, yields the parsed records of the served response, extracts the next
token and continues exactly when that token is truthy. An exhausted script
ends the trace (the source would block on the transport there; the theorems
only use scripts long enough for their hypotheses). -/
def readPagesFrom (parse : σ → List ρ) (nextTok : σ → Option Json) :
    Option Json → List σ → List (Event ρ)
  | _, [] => []
  | tok, r :: rest =>
      Event.req tok :: (parse r).map Event.out ++
        (if tokenTruthy (nextTok r) then readPagesFrom parse nextTok (nextTok r) rest else [])

/-- Embeds `BaseStream._read_pages` entered from the top: the loop starts with
`next_page_token = None` and `pagination_complete = False`. -/
def read_pages (parse : σ → List ρ) (nextTok : σ → Option Json)
    (script : List σ) : List (Event ρ) :=
  readPagesFrom parse nextTok none script

/-- Number of requests issued in a trace. -/
def reqCount : List (Event ρ) → Nat
  | [] => 0
  | .req _ :: rest => reqCount rest + 1
  | .out _ :: rest => reqCount rest

/-- Per-page blocks of the expected full trace of a terminating pagination:
one request per scripted page, carrying the token extracted from the previous
page (`none` for the first), followed by that page's records. -/
def pageBlocks (parse : σ → List ρ) (nextTok : σ → Option Json) :
    Option Json → List σ → List (Event ρ)
  | _, [] => []
  | tok, r :: rest =>
      Event.req tok :: (parse r).map Event.out ++ pageBlocks parse nextTok (nextTok r) rest

/-- Response of one scripted page as consumed by a generic stream: the records
its `parse_response` yields and the token its `next_page_token` extracts. -/
structure PageResponse where
  records : List Json
  token : Option Json

/-- Polymorphic capability bundle of a stream instance as read by
`read_records`/`_read_pages`: the `parse_response` and `next_page_token`
methods dispatched on `self`. The engine never writes to `self` on the read
path, which `read_records_invocation` makes explicit by returning the bundle
unchanged. -/
structure StreamDef (σ ρ : Type) where
  parse : σ → List ρ
  nextTok : σ → Option Json

/-- Embeds one invocation of `BaseStream.read_records` (`src/base.py` lines
231-239): it delegates to `_read_pages` with fresh pagination state
(`next_page_token = None`, `pagination_complete = False`) and returns the
stream instance unchanged — the read path only ever reads `self`. -/
def read_records_invocation (d : StreamDef σ ρ) (script : List σ) :
    List (Event ρ) × StreamDef σ ρ :=
  (readPagesFrom d.parse d.nextTok none script, d)

/-- Embeds `Comsumption.stream_slices` (`src/streams.py` lines 24-29): one
slice `{"parent": record}` per parent record, in parent order. -/
def comsumption_stream_slices (parentRecords : List Obj) : List Obj :=
  parentRecords.map fun r => [("parent", Json.obj r)]

/-- Embeds `Comsumption.parse_response` (`src/streams.py` lines 56-62): for
each element of the response data, write the parent slice's `distributorCode`
and then its `pointType` into the record and yield it. The source's
`kwargs["stream_slice"]["parent"][k]` raises `KeyError` on a missing key; the
model reads `Json.null` instead, coinciding with the source whenever the
parent record carries both keys (as the dependent theorems hypothesise). -/
def comsumption_parse_response (stream_slice : Obj) (data : List Obj) : List Obj :=
  data.map fun e =>
    dictInsert
      (dictInsert e "distributorCode" (dictGet (sliceParent stream_slice) "distributorCode"))
      "pointType" (dictGet (sliceParent stream_slice) "pointType")

/-- Page token extraction of `Comsumption` (and `Supplies`): neither overrides
`BaseStream.next_page_token` (`src/base.py` lines 109-110), which returns
`None` for every response. -/
def comsumption_next_page_token (_response : List Obj) : Option Json :=
  none

/-- Embeds `Comsumption.read_records` (`src/streams.py` lines 31-41): for each
slice produced by `stream_slices` (one per parent record, in parent order),
run one full `_read_pages` cycle scoped to that slice, concatenating the
traces. The transport serves each slice's scripted responses (each response
the parsed list of record objects) in order, one per issued request. -/
def comsumption_read_records (parentRecords : List Obj)
    (transport : Obj → List (List Obj)) : List (Event Obj) :=
  ((comsumption_stream_slices parentRecords).map fun s =>
    readPagesFrom (comsumption_parse_response s) comsumption_next_page_token
      none (transport s)).flatten

/-- Base URL of the API (`BaseStream.url_base`, `src/base.py` line 14). -/
def url_base : String := "https://datadis.es/api-private/api/"

theorem dictLookup_dictInsert (m : List (String × α)) (k k' : String) (v : α) :
    dictLookup (dictInsert m k v) k' = if k' = k then some v else dictLookup m k' := by
  induction m with
  | nil =>
      by_cases h : k' = k
      · simp [dictInsert, dictLookup, h]
      · simp [dictInsert, dictLookup, h, Ne.symm h]
  | cons hd rest ih =>
      obtain ⟨k₀, v₀⟩ := hd
      by_cases h0 : k₀ = k
      · by_cases h1 : k' = k
        · simp [dictInsert, dictLookup, h0, h1]
        · simp [dictInsert, dictLookup, h0, h1, Ne.symm h1]
      · by_cases h2 : k₀ = k'
        · simp [dictInsert, dictLookup, ← h2, h0, Ne.symm h0]
        · simp [dictInsert, dictLookup, h0, h2, ih]

theorem dictLookup_eq_none_of_not_mem (l : List (String × α)) (k : String)
    (h : k ∉ l.map Prod.fst) : dictLookup l k = none := by
  induction l with
  | nil => rfl
  | cons hd rest ih =>
      obtain ⟨k₀, v₀⟩ := hd
      simp only [List.map_cons, List.mem_cons, not_or] at h
      simp [dictLookup, Ne.symm h.1, ih h.2]

theorem dictLookup_pyDictUpdate (base upd : List (String × α)) (k : String)
    (h : (upd.map Prod.fst).Nodup) :
    dictLookup (pyDictUpdate base upd) k =
      (dictLookup upd k).or (dictLookup base k) := by
  induction upd generalizing base with
  | nil => simp [pyDictUpdate, dictLookup]
  | cons hd rest ih =>
      obtain ⟨k₀, v₀⟩ := hd
      simp only [List.map_cons, List.nodup_cons] at h
      have step : pyDictUpdate base ((k₀, v₀) :: rest) =
          pyDictUpdate (dictInsert base k₀ v₀) rest := rfl
      rw [step, ih _ h.2, dictLookup_dictInsert]
      by_cases hk : k = k₀
      · subst hk
        rw [dictLookup_eq_none_of_not_mem rest k h.1]
        simp [dictLookup]
      · simp [dictLookup, hk, Ne.symm hk]

/-- C1: `should_retry(response)` returns true exactly for status 429 and the
half-open interval `[500, 600)`, and false for every other status code. -/
theorem should_retry_iff_status (status_code : Nat) :
    should_retry status_code = true ↔
      (status_code = 429 ∨ (500 ≤ status_code ∧ status_code < 600)) := by
  simp [should_retry]

/-- C4: for a method in the body-bearing set with both a truthy JSON body and
a truthy form body, request preparation fails with `RequestBodyException`
before any request object is built (so no network call is issued). -/
theorem create_prepared_request_conflict (http_method path : String)
    (headers : Option (List (String × String)))
    (params : Option (List (String × Json)))
    (json : Option (List (String × Json)))
    (data : Option FormBody)
    (hm : pyUpper http_method ∈ BODY_REQUEST_METHODS)
    (hj : jsonBodyTruthy json = true)
    (hd : formBodyTruthy data = true) :
    create_prepared_request http_method url_base path headers params json data =
      .error RequestBodyException.conflictingBody := by
  simp [create_prepared_request, hm, hj, hd]

/-- Witness for C4: a POST with a non-empty JSON body and a non-empty form
body is rejected. -/
theorem create_prepared_request_conflict_witness :
    create_prepared_request "POST" url_base "get-supplies" none none
        (some [("a", Json.str "b")]) (some (FormBody.form [("c", "d")])) =
      .error RequestBodyException.conflictingBody :=
  create_prepared_request_conflict "POST" "get-supplies" none none
    (some [("a", Json.str "b")]) (some (FormBody.form [("c", "d")]))
    (by decide) rfl rfl

/-- C5: in the headers `dict(request_headers, **auth_header)` passed to
request construction by `_fetch_next_page`, every key bound by the
authenticator resolves to the authenticator's value, and only keys it does not
bind resolve to the resource-declared value. -/
theorem prepared_headers_auth_wins (request_headers auth_header : List (String × String))
    (k : String) (h : (auth_header.map Prod.fst).Nodup) :
    dictLookup (prepared_headers request_headers auth_header) k =
      (dictLookup auth_header k).or (dictLookup request_headers k) :=
  dictLookup_pyDictUpdate request_headers auth_header k h

/-- Witness for C5: an `Authorization` header supplied by the resource is
overridden by the authenticator's `Authorization` header, while a key the
authenticator does not bind keeps the resource value. -/
theorem prepared_headers_auth_wins_witness :
    dictLookup (prepared_headers [("Authorization", "resource"), ("Accept", "json")]
        [("Authorization", "Bearer tok")]) "Authorization" = some "Bearer tok" ∧
    dictLookup (prepared_headers [("Authorization", "resource"), ("Accept", "json")]
        [("Authorization", "Bearer tok")]) "Accept" = some "json" := by
  constructor
  · have := prepared_headers_auth_wins [("Authorization", "resource"), ("Accept", "json")]
      [("Authorization", "Bearer tok")] "Authorization" (by decide)
    rw [this]
    rfl
  · have := prepared_headers_auth_wins [("Authorization", "resource"), ("Accept", "json")]
      [("Authorization", "Bearer tok")] "Accept" (by decide)
    rw [this]
    rfl

/-- C10: the query parameters of every request carry `authorizedNif` bound to
the `authorized_nif` given at construction: the base `request_params` (used as
is by `Supplies`) binds it, and `Comsumption.request_params` extends the base
mapping without touching that binding. -/
theorem request_params_carry_authorizedNif (authorized_nif start_date : String)
    (stream_slice : Obj) :
    dictLookup (request_params authorized_nif) "authorizedNif" =
        some (Json.str authorized_nif) ∧
    dictLookup (comsumption_request_params authorized_nif start_date stream_slice)
        "authorizedNif" = some (Json.str authorized_nif) := by
  constructor
  · rfl
  · rw [comsumption_request_params,
      dictLookup_pyDictUpdate _ _ _ (by simp)]
    rfl

theorem retryLoop_attempts_le {α : Type} (transport : Nat → SendOutcome α)
    (fuel attempt elapsed : Nat) (ha : attempt ≤ 6) :
    (retryLoop transport 6 600 5 fuel attempt elapsed).attempts ≤ 6 := by
  induction fuel generalizing attempt elapsed with
  | zero => exact ha
  | succ f ih =>
      simp only [retryLoop]
      split
      · exact ha
      · split
        · next hcond => exact ih _ _ (by omega)
        · exact ha

theorem retryLoop_elapsed_le {α : Type} (transport : Nat → SendOutcome α)
    (fuel attempt elapsed : Nat) (he : elapsed ≤ 600) :
    (retryLoop transport 6 600 5 fuel attempt elapsed).elapsed ≤ 600 := by
  induction fuel generalizing attempt elapsed with
  | zero => exact he
  | succ f ih =>
      simp only [retryLoop]
      split
      · exact he
      · split
        · next hcond => exact ih _ _ (by omega)
        · exact he

theorem retryLoop_all_retryable_fails {α : Type} (transport : Nat → SendOutcome α)
    (h : ∀ n, (transport n).isRetryable = true) (fuel attempt elapsed : Nat) :
    (retryLoop transport 6 600 5 fuel attempt elapsed).isFailure = true := by
  induction fuel generalizing attempt elapsed with
  | zero => rfl
  | succ f ih =>
      simp only [retryLoop]
      split
      · next r heq =>
          exfalso
          have hh := h attempt
          rw [heq] at hh
          simp [SendOutcome.isRetryable] at hh
      · split
        · exact ih _ _
        · rfl

/-- C2: for every transport behaviour, a single logical request through the
retry executor makes at most 6 attempts and accumulates at most 600 seconds of
backoff wait, and when the transport fails retryably on every attempt the
budget runs out and the last failure is surfaced as a terminal failure. -/
theorem send_request_budget {α : Type} (transport : Nat → SendOutcome α) :
    (send_request transport).attempts ≤ 6 ∧
    (send_request transport).elapsed ≤ 600 ∧
    ((∀ n, (transport n).isRetryable = true) →
      (send_request transport).isFailure = true) := by
  have hdef : send_request transport = retryLoop transport 6 600 5 6 1 0 := rfl
  rw [hdef]
  exact ⟨retryLoop_attempts_le transport 6 1 0 (by omega),
    retryLoop_elapsed_le transport 6 1 0 (by omega),
    fun h => retryLoop_all_retryable_fails transport h 6 1 0⟩

/-- Witness for C2: a transport that fails retryably forever, with no
stream-supplied backoff, exhausts the attempt budget at 6 attempts after 155
seconds of exponential waiting and surfaces a terminal failure. -/
theorem send_request_budget_witness :
    (send_request (fun _ => SendOutcome.retryable (α := Nat) none)).isFailure = true ∧
    send_request (fun _ => SendOutcome.retryable (α := Nat) none) =
      RetryResult.failure 6 155 :=
  ⟨(send_request_budget (fun _ => SendOutcome.retryable (α := Nat) none)).2.2
      (fun _ => rfl),
    rfl⟩

theorem reqCount_append (a b : List (Event ρ)) :
    reqCount (a ++ b) = reqCount a + reqCount b := by
  induction a with
  | nil => simp [reqCount]
  | cons e rest ih =>
      cases e with
      | req t => simp [reqCount, ih]; omega
      | out r => simp [reqCount, ih]

theorem reqCount_map_out (l : List ρ) : reqCount (l.map Event.out) = 0 := by
  induction l with
  | nil => rfl
  | cons r rest ih => simpa [reqCount] using ih

theorem reqCount_pageBlocks {σ ρ : Type} (parse : σ → List ρ)
    (nextTok : σ → Option Json) (tok : Option Json) (l : List σ) :
    reqCount (pageBlocks parse nextTok tok l) = l.length := by
  induction l generalizing tok with
  | nil => rfl
  | cons p rest ih =>
      simp [pageBlocks, reqCount, reqCount_append, reqCount_map_out, ih]

theorem readPagesFrom_terminating {σ ρ : Type} (parse : σ → List ρ)
    (nextTok : σ → Option Json) (tok : Option Json) (ps : List σ) (q : σ)
    (hps : (ps.all fun p => tokenTruthy (nextTok p)) = true)
    (hq : tokenTruthy (nextTok q) = false) :
    readPagesFrom parse nextTok tok (ps ++ [q]) =
      pageBlocks parse nextTok tok (ps ++ [q]) := by
  induction ps generalizing tok with
  | nil => simp [readPagesFrom, pageBlocks, hq]
  | cons p rest ih =>
      simp only [List.all_cons, Bool.and_eq_true] at hps
      simp only [List.cons_append, readPagesFrom, pageBlocks, hps.1, if_true,
        List.append_eq]
      rw [ih _ hps.2]

/-- C3: over a scripted transport whose pages all carry a truthy continuation
token except the last, the pagination loop issues exactly one request per page
— the first with token `none`, each later one with the token extracted from
the preceding page — yields every page's records between that page's request
and the next request, terminates at the first falsy token, and issues
`length` requests in total. -/
theorem read_pages_terminating_trace {σ ρ : Type} (parse : σ → List ρ)
    (nextTok : σ → Option Json) (ps : List σ) (q : σ)
    (hps : (ps.all fun p => tokenTruthy (nextTok p)) = true)
    (hq : tokenTruthy (nextTok q) = false) :
    read_pages parse nextTok (ps ++ [q]) =
      pageBlocks parse nextTok none (ps ++ [q]) ∧
    reqCount (read_pages parse nextTok (ps ++ [q])) = ps.length + 1 := by
  have h := readPagesFrom_terminating parse nextTok none ps q hps hq
  refine ⟨h, ?_⟩
  rw [read_pages, h, reqCount_pageBlocks]
  simp

/-- Witness for C3: a scripted transport of 3 pages (token A, then token B,
then none) produces exactly 3 requests, in order, with every record of page k
yielded before the request for page k+1. -/
theorem read_pages_terminating_trace_witness :
    (read_pages PageResponse.records PageResponse.token
        [⟨[Json.str "r1"], some (Json.str "A")⟩, ⟨[Json.str "r2"], some (Json.str "B")⟩,
         ⟨[Json.str "r3"], none⟩] =
      pageBlocks PageResponse.records PageResponse.token none
        [⟨[Json.str "r1"], some (Json.str "A")⟩, ⟨[Json.str "r2"], some (Json.str "B")⟩,
         ⟨[Json.str "r3"], none⟩]) ∧
    reqCount (read_pages PageResponse.records PageResponse.token
        [⟨[Json.str "r1"], some (Json.str "A")⟩, ⟨[Json.str "r2"], some (Json.str "B")⟩,
         ⟨[Json.str "r3"], none⟩]) = 3 ∧
    read_pages PageResponse.records PageResponse.token
        [⟨[Json.str "r1"], some (Json.str "A")⟩, ⟨[Json.str "r2"], some (Json.str "B")⟩,
         ⟨[Json.str "r3"], none⟩] =
      [Event.req none, Event.out (Json.str "r1"),
       Event.req (some (Json.str "A")), Event.out (Json.str "r2"),
       Event.req (some (Json.str "B")), Event.out (Json.str "r3")] := by
  have h := read_pages_terminating_trace PageResponse.records PageResponse.token
    [⟨[Json.str "r1"], some (Json.str "A")⟩, ⟨[Json.str "r2"], some (Json.str "B")⟩]
    ⟨[Json.str "r3"], none⟩ (by decide) (by decide)
  simp only [List.cons_append, List.nil_append, List.length_cons, List.length_nil] at h
  exact ⟨h.1, h.2, by rw [h.1]; rfl⟩

/-- Keys searched by the error-message extraction, in source order. -/
def chainKeys : List String :=
  ["message", "messages", "error", "errors", "failures", "failure", "detail"]

/-- Value the mapping case of the extraction recurses into, stated as the
amended claim words it: the first chain key whose looked-up value is truthy,
with the `detail` lookup as the final fallback when no value is truthy (the
result of the last operand of the Python `or`-chain). -/
def firstTruthyChainValue (fields : List (String × Json)) : Json :=
  match (chainKeys.map (dictGet fields)).find? Json.truthy with
  | some v => v
  | none => dictGet fields "detail"

theorem chainValue_eq_firstTruthy (fields : List (String × Json)) :
    chainValue fields = firstTruthyChainValue fields := by
  unfold chainValue firstTruthyChainValue chainKeys
  simp only [List.map_cons, List.map_nil]
  by_cases h1 : (dictGet fields "message").truthy <;>
  by_cases h2 : (dictGet fields "messages").truthy <;>
  by_cases h3 : (dictGet fields "error").truthy <;>
  by_cases h4 : (dictGet fields "errors").truthy <;>
  by_cases h5 : (dictGet fields "failures").truthy <;>
  by_cases h6 : (dictGet fields "failure").truthy <;>
  by_cases h7 : (dictGet fields "detail").truthy <;>
  simp [pyOr, List.find?, h1, h2, h3, h4, h5, h6, h7]

/-- C6 counterexample: on the body `{"message": "", "error": "x"}` the first
present key in the claimed order is `message`, and recursing into its value
(the empty string, returned as is) would give the empty string; the code,
whose `or`-chain skips present-but-falsy values, returns `"x"` instead, so
the claimed first-present-key rule does not hold. -/
theorem parse_response_error_message_counterexample :
    dictLookup [("message", Json.str ""), ("error", Json.str "x")] "message" =
        some (Json.str "") ∧
    tryGetError (Json.str "") = some "" ∧
    parse_response_error_message
        (some (Json.obj [("message", Json.str ""), ("error", Json.str "x")])) =
      some "x" ∧
    (some "x" : Option String) ≠ some "" := by
  refine ⟨rfl, by simp [tryGetError], ?_, by simp⟩
  simp [parse_response_error_message, tryGetError, chainValue, dictGet, dictLookup,
    pyOr, Json.truthy]

/-- C6 (amended): the extraction returns none for an unparseable body,
returns strings as is, recurses into lists element-wise joining the non-none
results with a comma and space, and for mappings recurses into the first
chain-key value that is truthy (falling back to the `detail` lookup when no
value is truthy, so present-but-falsy values are skipped); in particular the
body with error.message bad date yields bad date and the body with errors
list a, b yields their join. -/
theorem parse_response_error_message_amended :
    (∀ s, tryGetError (Json.str s) = some s) ∧
    (∀ l, tryGetError (Json.arr l) =
      some (String.intercalate ", " (l.map tryGetError).reduceOption)) ∧
    (∀ fields, tryGetError (Json.obj fields) =
      tryGetError (firstTruthyChainValue fields)) ∧
    parse_response_error_message none = none ∧
    parse_response_error_message
        (some (Json.obj [("error", Json.obj [("message", Json.str "bad date")])])) =
      some "bad date" ∧
    parse_response_error_message
        (some (Json.obj [("errors", Json.arr [Json.str "a", Json.str "b"])])) =
      some "a, b" := by
  refine ⟨fun s => by simp [tryGetError], fun l => by simp [tryGetError],
    fun fields => ?_, rfl, ?_, ?_⟩
  · simp only [tryGetError]
    rw [chainValue_eq_firstTruthy]
  · simp [parse_response_error_message, tryGetError, chainValue, dictGet, dictLookup,
      pyOr, Json.truthy]
  · simp [parse_response_error_message, tryGetError, chainValue, dictGet, dictLookup,
      pyOr, Json.truthy, List.attach, List.attachWith, List.reduceOption]
    rfl

/-- C8 counterexample: two non-retryable 404 responses whose bodies extract
different messages are raised by `_send` as the very same terminal error, so
the raised error cannot carry the message extracted by the extraction rule:
`_send` re-raises the bare `raise_for_status` error (a function of the status
alone) and never calls `parse_response_error_message`, which is dead code in
the source. -/
theorem send_http_error_counterexample :
    sendDefault ⟨404, some (Json.obj [("message", Json.str "nope")])⟩ =
        .error (SendError.httpStatus 404) ∧
    sendDefault ⟨404, some (Json.obj [("message", Json.str "yep")])⟩ =
        .error (SendError.httpStatus 404) ∧
    parse_response_error_message (some (Json.obj [("message", Json.str "nope")])) =
        some "nope" ∧
    parse_response_error_message (some (Json.obj [("message", Json.str "yep")])) =
        some "yep" ∧
    (some "nope" : Option String) ≠ some "yep" := by
  refine ⟨rfl, rfl, ?_, ?_, by simp⟩ <;>
    simp [parse_response_error_message, tryGetError, chainValue, dictGet, dictLookup,
      pyOr, Json.truthy]

/-- C8 (amended): for every non-retryable response with a status in
`[400, 600)` and `raise_on_http_errors` enabled, `_send` raises a terminal
HTTP error determined by the status code alone; the body-message extraction
rule is not applied to it (the source merely logs the response text and
re-raises the bare error). -/
theorem send_http_error_amended (response : HttpResponse)
    (hnr : should_retry response.status = false)
    (h4 : 400 ≤ response.status) (h6 : response.status < 600) :
    sendDefault response = .error (SendError.httpStatus response.status) ∧
    ∀ body2 : Option Json,
      sendDefault ⟨response.status, body2⟩ =
        .error (SendError.httpStatus response.status) := by
  have hrfs : raiseForStatus response.status = true := by
    simp only [raiseForStatus, Bool.and_eq_true, decide_eq_true_eq]
    omega
  constructor
  · simp [sendDefault, send, hnr, hrfs]
  · intro body2
    simp [sendDefault, send, hnr, hrfs]

/-- Witness for C8 (amended): a 404 with an extractable body message is raised
as the status-only terminal HTTP error. -/
theorem send_http_error_amended_witness :
    sendDefault ⟨404, some (Json.obj [("detail", Json.str "missing")])⟩ =
      .error (SendError.httpStatus 404) :=
  (send_http_error_amended ⟨404, some (Json.obj [("detail", Json.str "missing")])⟩
    rfl (by decide) (by decide)).1

theorem readPagesFrom_single_page {ρ : Type} (parse : List Obj → List ρ)
    (script : List (List Obj)) (h : script ≠ []) :
    readPagesFrom parse comsumption_next_page_token none script =
      Event.req none :: (parse (script.headD [])).map Event.out := by
  cases script with
  | nil => exact absurd rfl h
  | cons r rest =>
      simp [readPagesFrom, comsumption_next_page_token, tokenTruthy]

theorem comsumption_parse_injects (s : Obj) (data : List Obj) (e : Obj)
    (he : e ∈ comsumption_parse_response s data) :
    dictLookup e "distributorCode" =
        some (dictGet (sliceParent s) "distributorCode") ∧
    dictLookup e "pointType" = some (dictGet (sliceParent s) "pointType") := by
  obtain ⟨e0, he0, rfl⟩ := List.mem_map.mp he
  constructor
  · rw [dictLookup_dictInsert, if_neg (by decide), dictLookup_dictInsert, if_pos rfl]
  · rw [dictLookup_dictInsert, if_pos rfl]

/-- C7: for every parent record sequence and per-slice transport with at least
one response per slice, the dependent stream's `read_records` runs exactly one
pagination cycle per parent record in parent order — each cycle issuing
exactly one request (the inherited `next_page_token` is always `None`) and
yielding that cycle's records before the next parent's request — and every
yielded child record carries the `distributorCode` and `pointType` looked up
in its parent slice's record. -/
theorem comsumption_read_records_fanout (parents : List Obj)
    (transport : Obj → List (List Obj))
    (htr : ∀ p ∈ parents, transport [("parent", Json.obj p)] ≠ []) :
    comsumption_read_records parents transport =
      (parents.map fun p =>
        Event.req none ::
          (comsumption_parse_response [("parent", Json.obj p)]
            ((transport [("parent", Json.obj p)]).headD [])).map Event.out).flatten ∧
    ∀ p ∈ parents, ∀ data : List Obj, ∀ e : Obj,
      e ∈ comsumption_parse_response [("parent", Json.obj p)] data →
        dictLookup e "distributorCode" = some (dictGet p "distributorCode") ∧
        dictLookup e "pointType" = some (dictGet p "pointType") := by
  constructor
  · unfold comsumption_read_records comsumption_stream_slices
    rw [List.map_map]
    congr 1
    apply List.map_congr_left
    intro p hp
    exact readPagesFrom_single_page _ _ (htr p hp)
  · intro p hp data e he
    have h := comsumption_parse_injects [("parent", Json.obj p)] data e he
    have hsp : sliceParent [("parent", Json.obj p)] = p := by
      simp [sliceParent, dictLookup]
    rw [hsp] at h
    exact h

/-- Parent records of the spec's fan-out example. -/
def exampleParents : List Obj :=
  [[("cups", Json.str "X1"), ("distributorCode", Json.str "D1"), ("pointType", Json.num 1)],
   [("cups", Json.str "X2"), ("distributorCode", Json.str "D2"), ("pointType", Json.num 2)]]

/-- Scripted child transport for the fan-out example: every slice is served
one single-record page. -/
def exampleTransport : Obj → List (List Obj) :=
  fun _ => [[[("time", Json.str "01:00")]]]

/-- Witness for C7: with two parent records, the child fetch runs once per
parent, in order, and each yielded child record carries its own parent's
`distributorCode` and `pointType`. -/
theorem comsumption_read_records_fanout_witness :
    comsumption_read_records exampleParents exampleTransport =
      [Event.req none,
       Event.out [("time", Json.str "01:00"), ("distributorCode", Json.str "D1"),
         ("pointType", Json.num 1)],
       Event.req none,
       Event.out [("time", Json.str "01:00"), ("distributorCode", Json.str "D2"),
         ("pointType", Json.num 2)]] := by
  have h := comsumption_read_records_fanout exampleParents exampleTransport
    (fun p hp => List.cons_ne_nil _ _)
  rw [h.1]
  rfl

/-- C9: two invocations of `read_records` against the same transport script
yield the same trace: an invocation returns the stream instance unchanged (the
read path never writes to `self`), re-invoking on the returned instance
reproduces the trace, and every invocation starts from fresh pagination state,
its first request carrying the token `none`. -/
theorem read_records_invocation_idempotent {σ ρ : Type} (d : StreamDef σ ρ)
    (script : List σ) (r : σ) (rest : List σ) :
    (read_records_invocation d script).2 = d ∧
    (read_records_invocation (read_records_invocation d script).2 script).1 =
      (read_records_invocation d script).1 ∧
    (read_records_invocation d (r :: rest)).1.head? = some (Event.req none) := by
  refine ⟨rfl, rfl, ?_⟩
  simp [read_records_invocation, readPagesFrom]
